import Mathlib

/-!
Shallow embedding of `examples/libevent-client.c` (nghttp2 example client)
and proofs about its connection / stream lifecycle orchestration.

Modelling conventions:
- Machine strings are `List Char`; heap buffers obtained from `malloc` are
  `List (Option Char)` where `none` marks a byte that was never written
  (uninitialized memory).
- A pointer field that was never assigned is an `Option` buffer whose value
  is `none`; writing through such a pointer is undefined behavior and makes
  the modelled operation return `none` at the `Option` level of the whole
  computation.
- External collaborators (http_parser URI decomposition, the nghttp2 engine,
  libevent, OpenSSL) are modelled only through the values they hand to the
  code under verification, per the interface contracts of the spec.
-/

/-! ## URI parser output (external collaborator, struct http_parser_url) -/

/-- One (offset,length) range of `struct http_parser_url`'s `field_data`. -/
structure FieldData where
  off : Nat
  len : Nat
deriving DecidableEq

/-- Result of `http_parser_parse_url`: bitmask `field_set`, numeric `port`,
and the ranges used by the client (`UF_SCHEMA`, `UF_HOST`, `UF_PATH`,
`UF_QUERY`).  Fields absent from `field_set` carry unspecified ranges; in
concrete instances below they are written as `⟨0, 0⟩`. -/
structure HttpParserUrl where
  fieldSet : Nat
  port : Nat
  schema : FieldData
  host : FieldData
  path : FieldData
  query : FieldData
deriving DecidableEq

/-- `UF_SCHEMA` bit index of `http_parser`. -/
def UF_SCHEMA : Nat := 0

/-- `UF_HOST` bit index of `http_parser`. -/
def UF_HOST : Nat := 1

/-- `UF_PORT` bit index of `http_parser`. -/
def UF_PORT : Nat := 2

/-- `UF_PATH` bit index of `http_parser`. -/
def UF_PATH : Nat := 3

/-- `UF_QUERY` bit index of `http_parser`. -/
def UF_QUERY : Nat := 4

/-- The C test `u->field_set & (1 << f)`. -/
def hasField (u : HttpParserUrl) (f : Nat) : Bool :=
  u.fieldSet.testBit f

/-- The bytes `&s[off] .. &s[off+len-1]` of a string. -/
def substr (s : List Char) (off len : Nat) : List Char :=
  (s.drop off).take len

/-! ## Byte buffers -/

/-- `malloc n`: a buffer of `n` uninitialized bytes. -/
def mallocBuf (n : Nat) : List (Option Char) :=
  List.replicate n none

/-- `memcpy(dst + off, src, src.length)` into an allocated buffer.  Copying
zero bytes writes nothing; a copy that would run past the end of the buffer
is a heap overflow and yields `none`. -/
def memcpyBuf (dst : List (Option Char)) (off : Nat) (src : List Char) :
    Option (List (Option Char)) :=
  if src.length = 0 then some dst
  else if off + src.length ≤ dst.length then
    some (dst.take off ++ src.map some ++ dst.drop (off + src.length))
  else none

/-- `memcpy` through a pointer variable that may never have been assigned
(`ptr = none`).  Copying zero bytes performs no write; copying through an
unassigned pointer is undefined behavior and yields `none`. -/
def memcpyPtr (ptr : Option (List (Option Char))) (off : Nat) (src : List Char) :
    Option (Option (List (Option Char))) :=
  if src.length = 0 then some ptr
  else
    match ptr with
    | none => none
    | some b => (memcpyBuf b off src).map some

/-- The NUL character appended by `snprintf`. -/
def nulChar : Char := Char.ofNat 0

/-- The characters produced by `snprintf(_, 7, ":%u", port)` excluding the
trailing NUL: a colon followed by the decimal digits of the port. -/
def portSuffix (port : Nat) : List Char :=
  ':' :: Nat.toDigits 10 port

/-! ## http2_stream_data and create_http2_stream_data -/

/-- The fields of `http2_stream_data` that the client derives (the `uri` and
`u` pointers are kept by reference in C; only `uri` is retained here).
`authority = none` models an `authority` pointer that was never assigned. -/
structure Http2StreamData where
  uri : List Char
  authority : Option (List (Option Char))
  path : List (Option Char)
  authoritylen : Nat
  pathlen : Nat
  stream_id : Int
deriving DecidableEq

/-- Lines 78-88 of `create_http2_stream_data`: `authoritylen` starts as the
host length; only when `UF_PORT` is set is the `authority` buffer allocated
and the `:port` suffix written by `snprintf` (NUL included, return value
added to `authoritylen`); then the host bytes are unconditionally copied to
the front of `authority`.  Without a port the copy goes through the
never-assigned `authority` pointer. -/
def deriveAuthority (uri : List Char) (u : HttpParserUrl) :
    Option (Option (List (Option Char)) × Nat) :=
  let hostStr := substr uri u.host.off u.host.len
  if hasField u UF_PORT then
    let buf := mallocBuf (u.host.len + 7)
    let ps := portSuffix u.port
    match memcpyBuf buf u.host.len (ps ++ [nulChar]) with
    | none => none
    | some buf2 =>
      match memcpyPtr (some buf2) 0 hostStr with
      | none => none
      | some a => some (a, u.host.len + ps.length)
  else
    match memcpyPtr none 0 hostStr with
    | none => none
    | some a => some (a, u.host.len)

/-- Lines 90-101 of `create_http2_stream_data`: `pathlen` is assigned only
when `UF_PATH` is set (otherwise it is read uninitialized, which is
undefined); `+ query.len + 1` is added when `UF_QUERY` is set; the path
bytes are copied at offset 0 and the query bytes at offset `path.len + 1`.
No byte is ever stored at offset `path.len` itself. -/
def derivePath (uri : List Char) (u : HttpParserUrl) :
    Option (List (Option Char) × Nat) :=
  if hasField u UF_PATH then
    let plen :=
      if hasField u UF_QUERY then u.path.len + u.query.len + 1 else u.path.len
    let buf := mallocBuf plen
    match memcpyBuf buf 0 (substr uri u.path.off u.path.len) with
    | none => none
    | some buf2 =>
      match memcpyBuf buf2 (u.path.len + 1) (substr uri u.query.off u.query.len) with
      | none => none
      | some buf3 => some (buf3, plen)
  else none

/-- `create_http2_stream_data` (lines 69-103): sets `stream_id` to `-1`,
derives the authority (lines 78-88) and then the path (lines 90-101).
In C the authority `memcpy` executes before any path work, so an undefined
authority write crashes before the path is built; both orders collapse to
`none` here. -/
def create_http2_stream_data (uri : List Char) (u : HttpParserUrl) :
    Option Http2StreamData :=
  (deriveAuthority uri u).bind fun al =>
    (derivePath uri u).map fun pl =>
      { uri := uri, authority := al.1, authoritylen := al.2,
        path := pl.1, pathlen := pl.2, stream_id := -1 }

/-! ## Concrete parsed URIs used as test inputs -/

/-- The URI text `https://e:80/a?x`. -/
def uriWithQuery : List Char := "https://e:80/a?x".toList

/-- `http_parser` output for `https://e:80/a?x`: schema `https` at (0,5),
host `e` at (8,1), port 80, path `/a` at (12,2), query `x` at (15,1);
`field_set` has bits `UF_SCHEMA`, `UF_HOST`, `UF_PORT`, `UF_PATH`,
`UF_QUERY`. -/
def uWithQuery : HttpParserUrl :=
  { fieldSet := 31, port := 80, schema := ⟨0, 5⟩, host := ⟨8, 1⟩,
    path := ⟨12, 2⟩, query := ⟨15, 1⟩ }

/-- The URI text `https://e/`. -/
def uriNoPort : List Char := "https://e/".toList

/-- `http_parser` output for `https://e/`: schema `https` at (0,5), host `e`
at (8,1), path `/` at (9,1); no port and no query (`field_set` bits
`UF_SCHEMA`, `UF_HOST`, `UF_PATH`). -/
def uNoPort : HttpParserUrl :=
  { fieldSet := 11, port := 0, schema := ⟨0, 5⟩, host := ⟨8, 1⟩,
    path := ⟨9, 1⟩, query := ⟨0, 0⟩ }

/-! ## Library constants (external to src; values immaterial to the claims) -/

/-- Modelled from the spec: the fixed connection preface byte sequence
(`NGHTTP2_CLIENT_CONNECTION_HEADER`, a constant of the nghttp2 library). -/
def NGHTTP2_CLIENT_CONNECTION_HEADER : List Char :=
  "PRI * HTTP/2.0\r\n\r\nSM\r\n\r\n".toList

/-- Modelled from the spec: the protocol identifier the client expects the
peer to select (`NGHTTP2_PROTO_VERSION_ID`, a constant of the nghttp2
library). -/
def NGHTTP2_PROTO_VERSION_ID : List Char :=
  "HTTP-draft-04/2.0".toList

/-- Modelled from the spec: the settings identifier for max concurrent
streams (`NGHTTP2_SETTINGS_MAX_CONCURRENT_STREAMS` of the nghttp2 library). -/
def NGHTTP2_SETTINGS_MAX_CONCURRENT_STREAMS : Nat := 4

/-- Modelled from the spec: the `NGHTTP2_HEADERS` frame type tag of the
nghttp2 library. -/
def NGHTTP2_HEADERS : Nat := 1

/-- Modelled from the spec: the `NGHTTP2_HCAT_REQUEST` headers category tag
of the nghttp2 library. -/
def NGHTTP2_HCAT_REQUEST : Nat := 0

/-- Modelled from the spec: the `NGHTTP2_HCAT_RESPONSE` headers category tag
of the nghttp2 library. -/
def NGHTTP2_HCAT_RESPONSE : Nat := 1

/-! ## Observable actions of the client -/

/-- The callback slots filled by `initialize_nghttp2_session`. -/
inductive CbKind where
  | sendCb
  | beforeFrameSendCb
  | onFrameRecvCb
  | onDataChunkRecvCb
  | onStreamCloseCb
deriving DecidableEq

/-- The callback set registered at lines 292-296, in registration order. -/
def registered_callbacks : List CbKind :=
  [.sendCb, .beforeFrameSendCb, .onFrameRecvCb, .onDataChunkRecvCb, .onStreamCloseCb]

/-- Externally observable effects of the client, in program order. -/
inductive Act where
  | sslShutdown
  | freeBev
  | freeDns
  | delSession
  | delStream
  | warnFatal (rv : Int)
  | warnDisconnected
  | warnNetworkError
  | warnTimeout
  | flush
  | setNodelay
  | initSession (cbs : List CbKind)
  | writeTransport (bs : List Char)
  | submitSettings (iv : List (Nat × Nat))
  | printStderr (s : List Char)
  | stdoutWrite (bs : List Char)
  | submitReq (hdrs : List (List Char × List Char))
  | submitGoaway
  | logStreamClose (sid : Int) (code : Nat)
  | abortProc (code : Nat) (msg : List Char)
deriving DecidableEq

/-! ## http2_session_data and teardown -/

/-- Liveness flags of the handles owned by `http2_session_data`, plus the
stream identifier captured in the owned `http2_stream_data`.  A `false` flag
models a pointer that is `NULL` (or an SSL object that is absent). -/
structure SessionData where
  sessionLive : Bool
  dnsLive : Bool
  bevLive : Bool
  hasSsl : Bool
  streamLive : Bool
  streamId : Int
deriving DecidableEq

/-- `delete_http2_session_data` (lines 122-139): shut down SSL if the
bufferevent carries one, free the bufferevent, free the DNS base, delete the
nghttp2 session, and delete the stream data if present; every freed handle
is nulled. -/
def delete_http2_session_data (sd : SessionData) : SessionData × List Act :=
  (⟨false, false, false, false, false, sd.streamId⟩,
   (if sd.hasSsl then [Act.sslShutdown] else []) ++
     [Act.freeBev, Act.freeDns, Act.delSession] ++
     (if sd.streamLive then [Act.delStream] else []))

/-! ## nghttp2 receive-side callbacks -/

/-- The fields of an `nghttp2_frame` read by the client: `hd.type`,
`headers.cat`, `hd.stream_id` and the header list `headers.nva` (with
lengths). -/
structure Frame where
  type : Nat
  cat : Nat
  stream_id : Int
  nva : List (List Char × List Char)
deriving DecidableEq

/-- The bytes `print_headers` (lines 144-154) sends to stderr: each header
as `name: value` on its own line, then a blank line.  (The `f` parameter of
the C function is ignored; it always writes to stderr.) -/
def print_headers_out (nva : List (List Char × List Char)) : List Char :=
  ((nva.map fun nv => nv.1 ++ ": ".toList ++ nv.2 ++ "\n".toList)).flatten ++ "\n".toList

/-- `on_frame_recv_callback` (lines 193-208): only `NGHTTP2_HEADERS` frames
of category `NGHTTP2_HCAT_RESPONSE` whose stream id equals the captured one
produce output (the response-header dump on stderr). -/
def on_frame_recv_callback (storedId : Int) (f : Frame) : List Act :=
  if f.type = NGHTTP2_HEADERS then
    if f.cat = NGHTTP2_HCAT_RESPONSE ∧ storedId = f.stream_id then
      [Act.printStderr ("Response headers:\n".toList),
       Act.printStderr (print_headers_out f.nva)]
    else []
  else []

/-- `on_data_chunk_recv_callback` (lines 215-225): the chunk bytes go to
stdout exactly when the chunk's stream id equals the captured one. -/
def on_data_chunk_recv_callback (storedId : Int) (stream_id : Int)
    (data : List Char) : List Act :=
  if storedId = stream_id then [Act.stdoutWrite data] else []

/-- `on_stream_close_callback` (lines 231-244): when the closed stream id
equals the captured one, log the closure and submit a GOAWAY frame. -/
def on_stream_close_callback (storedId : Int) (stream_id : Int)
    (error_code : Nat) : List Act :=
  if storedId = stream_id then
    [Act.logStreamClose stream_id error_code, Act.submitGoaway]
  else []

/-- One receive-side callback invocation the engine performs while inside
`nghttp2_session_mem_recv`. -/
inductive CbEvent where
  | frameRecv (f : Frame)
  | dataChunk (sid : Int) (data : List Char)
  | streamClose (sid : Int) (code : Nat)
deriving DecidableEq

/-- Dispatch of an engine callback to the handler registered for it. -/
def dispatchCb (sd : SessionData) (c : CbEvent) : List Act :=
  match c with
  | .frameRecv f => on_frame_recv_callback sd.streamId f
  | .dataChunk sid data => on_data_chunk_recv_callback sd.streamId sid data
  | .streamClose sid code => on_stream_close_callback sd.streamId sid code

/-! ## before_frame_send_callback (stream id capture) -/

/-- The condition of lines 179-184: the frame is a `NGHTTP2_HEADERS` frame
of category `NGHTTP2_HCAT_REQUEST` and
`nghttp2_session_get_stream_user_data` (modelled by `udf`) maps its stream
id to this session's `stream_data` (modelled by the token `selfId`). -/
def bfsMatch (udf : Int → Option Nat) (selfId : Nat) (f : Frame) : Bool :=
  f.type == NGHTTP2_HEADERS && f.cat == NGHTTP2_HCAT_REQUEST &&
    udf f.stream_id == some selfId

/-- `before_frame_send_callback` (lines 173-189): capture the engine-assigned
stream id into `stream_data->stream_id` exactly when `bfsMatch` holds;
otherwise leave the stored id unchanged. -/
def before_frame_send_callback (udf : Int → Option Nat) (selfId : Nat)
    (storedId : Int) (f : Frame) : Int :=
  if bfsMatch udf selfId f then f.stream_id else storedId

/-- One invocation of `before_frame_send_callback`, instrumented with a
count of assignments to `stream_data->stream_id`. -/
def before_frame_send_step (udf : Int → Option Nat) (selfId : Nat)
    (acc : Int × Nat) (f : Frame) : Int × Nat :=
  if bfsMatch udf selfId f then (f.stream_id, acc.2 + 1) else acc

/-- The sequence of `before_frame_send_callback` invocations over the frames
the engine sends, threading the stored id and the write count. -/
def before_frame_send_run (udf : Int → Option Nat) (selfId : Nat) :
    Int × Nat → List Frame → Int × Nat
  | acc, [] => acc
  | acc, f :: fs =>
    before_frame_send_run udf selfId (before_frame_send_step udf selfId acc f) fs

/-! ## Transport event handlers and connected-path actions -/

/-- The per-connection values the connected handler reads from
`session_data->stream_data`: the URI text, its parse, and the derived
authority and path header values (with their lengths applied). -/
structure Ctx where
  uri : List Char
  u : HttpParserUrl
  authority : List Char
  path : List Char
deriving DecidableEq

/-- The header set built by `submit_request` (lines 324-330): exactly
`:method: GET`, `:scheme:` the scheme range of the URI, `:authority:` the
derived authority, `:path:` the derived path. -/
def request_hdrs (ctx : Ctx) : List (List Char × List Char) :=
  [(":method".toList, "GET".toList),
   (":scheme".toList, substr ctx.uri ctx.u.schema.off ctx.u.schema.len),
   (":authority".toList, ctx.authority),
   (":path".toList, ctx.path)]

/-- `send_client_connection_header` (lines 300-310): write the fixed
connection preface to the bufferevent, then submit a settings frame whose
single entry is max concurrent streams = 100. -/
def send_client_connection_header_acts : List Act :=
  [Act.writeTransport NGHTTP2_CLIENT_CONNECTION_HEADER,
   Act.submitSettings [(NGHTTP2_SETTINGS_MAX_CONCURRENT_STREAMS, 100)]]

/-- `submit_request` (lines 319-335): dump the request headers to stderr,
then submit the request with `request_hdrs`. -/
def submit_request_acts (ctx : Ctx) : List Act :=
  [Act.printStderr ("Request headers:\n".toList),
   Act.printStderr (print_headers_out (request_hdrs ctx)),
   Act.submitReq (request_hdrs ctx)]

/-- The `BEV_EVENT_CONNECTED` branch of `eventcb` (lines 387-397): log,
disable TCP segment coalescing, initialize the nghttp2 session with the
registered callback set, send the connection preface and settings, submit
the request, and flush via `session_send`. -/
def eventcb_connected (ctx : Ctx) : List Act :=
  [Act.printStderr ("Connected\n".toList), Act.setNodelay,
   Act.initSession registered_callbacks] ++
    send_client_connection_header_acts ++ submit_request_acts ctx ++ [Act.flush]

/-- `readcb` (lines 348-363): the engine's `nghttp2_session_mem_recv` runs
the receive-side callbacks `cbs` and returns `rv`.  A negative `rv` warns
and tears the session down; a non-negative `rv` drains `rv` bytes from the
input buffer.  Either way `session_send` is called at the end.  The result
is (session state, remaining input buffer, emitted actions). -/
def readcb (sd : SessionData) (input : List Char) (rv : Int)
    (cbs : List CbEvent) : SessionData × List Char × List Act :=
  let cbActs := (cbs.map (dispatchCb sd)).flatten
  if rv < 0 then
    let p := delete_http2_session_data sd
    (p.1, input, cbActs ++ Act.warnFatal rv :: p.2 ++ [Act.flush])
  else
    (sd, input.drop rv.toNat, cbActs ++ [Act.flush])

/-- `writecb` (lines 369-377): tear the session down exactly when the
engine wants neither to read nor to write and the bufferevent output buffer
is empty.  `wantRead` and `wantWrite` are the integer results of
`nghttp2_session_want_read/_write`;  `outLen` is the output buffer length. -/
def writecb (sd : SessionData) (wantRead wantWrite : Int) (outLen : Nat) :
    SessionData × List Act :=
  if wantRead = 0 ∧ wantWrite = 0 ∧ outLen = 0 then delete_http2_session_data sd
  else (sd, [])

/-- The transport events delivered to the client, each carrying the values
the external collaborators supply during that delivery. -/
inductive LoopEvent where
  | readReady (input : List Char) (rv : Int) (cbs : List CbEvent)
  | writeDone (wantRead wantWrite : Int) (outLen : Nat)
  | connected
  | eofEv
  | errorEv
  | timeoutEv
deriving DecidableEq

/-- The non-read, non-write branches of `eventcb` (lines 384-406):
`BEV_EVENT_CONNECTED` runs the activation sequence (and creates the nghttp2
session); EOF, error and timeout each warn with their own message and tear
the session down. -/
def eventcb (ctx : Ctx) (sd : SessionData) (e : LoopEvent) :
    SessionData × List Act :=
  match e with
  | .connected => ({ sd with sessionLive := true }, eventcb_connected ctx)
  | .eofEv =>
    let p := delete_http2_session_data sd
    (p.1, Act.warnDisconnected :: p.2)
  | .errorEv =>
    let p := delete_http2_session_data sd
    (p.1, Act.warnNetworkError :: p.2)
  | .timeoutEv =>
    let p := delete_http2_session_data sd
    (p.1, Act.warnTimeout :: p.2)
  | _ => (sd, [])

/-- Delivery of one transport event.  Per the libevent contract,
`bufferevent_free` (performed by teardown) removes the callbacks, so events
are delivered only while the bufferevent is live. -/
def stepEvent (ctx : Ctx) (sd : SessionData) (e : LoopEvent) :
    SessionData × List Act :=
  if sd.bevLive then
    match e with
    | .readReady input rv cbs =>
      let r := readcb sd input rv cbs
      (r.1, r.2.2)
    | .writeDone wr ww ol => writecb sd wr ww ol
    | e => eventcb ctx sd e
  else (sd, [])

/-- The event loop (`event_base_loop`): deliver the events in order,
accumulating the emitted actions. -/
def runLoop (ctx : Ctx) : SessionData → List LoopEvent → SessionData × List Act
  | sd, [] => (sd, [])
  | sd, e :: es =>
    let p := stepEvent ctx sd e
    let q := runLoop ctx p.1 es
    (q.1, p.2 ++ q.2)

/-- The terminal events of the spec's lifecycle: a fatal protocol decode
error (negative ingestion result), graceful-drain completion (write done
with no pending output and no engine interest), and transport
EOF/error/timeout. -/
def isTerminalEvent : LoopEvent → Bool
  | .readReady _ rv _ => rv < 0
  | .writeDone wr ww ol => wr == 0 && ww == 0 && ol == 0
  | .connected => false
  | .eofEv => true
  | .errorEv => true
  | .timeoutEv => true

/-! ## ALPN selection callback and process-level run -/

/-- The outcome of `select_next_proto_cb`: either `errx(1, ...)` (process
abort with a diagnostic) or `SSL_TLSEXT_ERR_OK`. -/
inductive NextProtoResult where
  | abortProcess (code : Nat) (msg : List Char)
  | tlsExtErrOk
deriving DecidableEq

/-- The diagnostic of line 255. -/
def alpnFailureMsg : List Char :=
  "Server did not advertise ".toList ++ NGHTTP2_PROTO_VERSION_ID

/-- `select_next_proto_cb` (lines 249-258): a non-positive result of
`nghttp2_select_next_protocol` aborts the process with the diagnostic;
otherwise the handshake proceeds. -/
def select_next_proto_cb (selectResult : Int) : NextProtoResult :=
  if selectResult ≤ 0 then .abortProcess 1 alpnFailureMsg else .tlsExtErrOk

/-- Process-level run after TCP connect: the TLS handshake (during which the
NPN/ALPN selection callback fires) completes before any transport event is
delivered, so an aborting selection callback ends the process before the
event loop runs. -/
def runClient (alpnSelect : Int) (ctx : Ctx) (sd : SessionData)
    (events : List LoopEvent) : List Act :=
  match select_next_proto_cb alpnSelect with
  | .abortProcess c m => [Act.abortProc c m]
  | .tlsExtErrOk => (runLoop ctx sd events).2

/-! ## Helper lemmas -/

lemma freeBev_not_mem_dispatch (sd : SessionData) (c : CbEvent) :
    Act.freeBev ∉ dispatchCb sd c := by
  cases c with
  | frameRecv f =>
    simp only [dispatchCb, on_frame_recv_callback]
    split
    · split <;> simp
    · simp
  | dataChunk sid data =>
    simp only [dispatchCb, on_data_chunk_recv_callback]
    split <;> simp
  | streamClose sid code =>
    simp only [dispatchCb, on_stream_close_callback]
    split <;> simp

lemma freeBev_not_mem_flatten (sd : SessionData) (cbs : List CbEvent) :
    Act.freeBev ∉ (cbs.map (dispatchCb sd)).flatten := by
  intro h
  rw [List.mem_flatten] at h
  obtain ⟨l, hl, hmem⟩ := h
  rw [List.mem_map] at hl
  obtain ⟨c, _, rfl⟩ := hl
  exact freeBev_not_mem_dispatch sd c hmem

lemma delete_teardown_trace (sd : SessionData) :
    (delete_http2_session_data sd).2.count Act.freeBev = 1 ∧
      (delete_http2_session_data sd).1.bevLive = false := by
  refine ⟨?_, rfl⟩
  simp only [delete_http2_session_data]
  split <;> split <;> decide

lemma freeBev_not_mem_connected (ctx : Ctx) :
    Act.freeBev ∉ eventcb_connected ctx := by
  simp [eventcb_connected, send_client_connection_header_acts, submit_request_acts]

lemma stepEvent_not_live (ctx : Ctx) (sd : SessionData) (e : LoopEvent)
    (h : sd.bevLive = false) : stepEvent ctx sd e = (sd, []) := by
  simp [stepEvent, h]

lemma stepEvent_freeBev (ctx : Ctx) (sd : SessionData) (e : LoopEvent) :
    (stepEvent ctx sd e).2.count Act.freeBev ≤ 1 ∧
      (0 < (stepEvent ctx sd e).2.count Act.freeBev →
        (stepEvent ctx sd e).1.bevLive = false) := by
  by_cases hb : sd.bevLive
  · have hdel := delete_teardown_trace sd
    cases e with
    | readReady input rv cbs =>
      have h1 : ((cbs.map (dispatchCb sd)).flatten).count Act.freeBev = 0 :=
        List.count_eq_zero.mpr (freeBev_not_mem_flatten sd cbs)
      simp only [stepEvent, hb, if_true, readcb]
      by_cases hrv : rv < 0
      · simp only [hrv, if_true]
        refine ⟨?_, fun _ => hdel.2⟩
        simp [List.count_append, List.count_cons, h1, hdel.1]
      · simp only [hrv, if_false]
        constructor
        · simp [List.count_append, List.count_cons, h1]
        · intro hpos
          simp [List.count_append, List.count_cons, h1] at hpos
    | writeDone wr ww ol =>
      simp only [stepEvent, hb, if_true, writecb]
      split
      · exact ⟨le_of_eq hdel.1, fun _ => hdel.2⟩
      · simp
    | connected =>
      have h1 : (eventcb_connected ctx).count Act.freeBev = 0 :=
        List.count_eq_zero.mpr (freeBev_not_mem_connected ctx)
      simp only [stepEvent, hb, if_true, eventcb]
      constructor
      · simp [h1]
      · intro hpos
        simp [h1] at hpos
    | eofEv =>
      simp only [stepEvent, hb, if_true, eventcb]
      refine ⟨?_, fun _ => hdel.2⟩
      simp [List.count_cons, hdel.1]
    | errorEv =>
      simp only [stepEvent, hb, if_true, eventcb]
      refine ⟨?_, fun _ => hdel.2⟩
      simp [List.count_cons, hdel.1]
    | timeoutEv =>
      simp only [stepEvent, hb, if_true, eventcb]
      refine ⟨?_, fun _ => hdel.2⟩
      simp [List.count_cons, hdel.1]
  · rw [stepEvent_not_live ctx sd e (by simpa using hb)]
    simp

lemma runLoop_not_live (ctx : Ctx) (es : List LoopEvent) (sd : SessionData)
    (h : sd.bevLive = false) : runLoop ctx sd es = (sd, []) := by
  induction es with
  | nil => rfl
  | cons e es ih =>
    rw [runLoop]
    rw [stepEvent_not_live ctx sd e h]
    simpa using ih

lemma runLoop_count_freeBev (ctx : Ctx) (es : List LoopEvent) (sd : SessionData) :
    (runLoop ctx sd es).2.count Act.freeBev ≤ 1 := by
  induction es generalizing sd with
  | nil => simp [runLoop]
  | cons e es ih =>
    have hs := stepEvent_freeBev ctx sd e
    rw [runLoop]
    simp only [List.count_append]
    by_cases h0 : (stepEvent ctx sd e).2.count Act.freeBev = 0
    · rw [h0]
      simpa using ih (stepEvent ctx sd e).1
    · have hlive := hs.2 (Nat.pos_of_ne_zero h0)
      rw [runLoop_not_live ctx es _ hlive]
      simpa using hs.1

/-! ## Claim theorems -/

/-- Claim C1 (code-bug exhibit).  For `https://e:80/a?x` (path `/a`, query
`x`) the code computes `pathlen = 4`, the length of `/a?x`, but the derived
path buffer is `/a` followed by an uninitialized byte followed by `x`: the
comment at line 94 reserves a byte "for '?' character", yet no statement
ever stores `'?'` at offset `path.len`, so the derived path is not
`<path>?<query>` as the claim states. -/
theorem path_question_mark_never_written :
    (create_http2_stream_data uriWithQuery uWithQuery).map Http2StreamData.pathlen
        = some 4 ∧
      (create_http2_stream_data uriWithQuery uWithQuery).map Http2StreamData.path
        = some [some '/', some 'a', none, some 'x'] ∧
      (create_http2_stream_data uriWithQuery uWithQuery).map Http2StreamData.path
        ≠ some (("/a?x".toList).map some) := by
  refine ⟨?_, ?_, ?_⟩ <;> decide

/-- Claim C2 (code-bug exhibit).  For the portless URI `https://e/` the
`authority` buffer is never allocated (the `malloc` at line 82 sits inside
the `UF_PORT` branch), yet line 87 copies the host bytes through that
never-assigned pointer: undefined behavior, modelled as `none`, instead of
the claimed derived authority equal to the host. -/
theorem authority_write_through_unassigned_pointer :
    create_http2_stream_data uriNoPort uNoPort = none := by decide

lemma freeBev_mem_delete (sd : SessionData) :
    Act.freeBev ∈ (delete_http2_session_data sd).2 := by
  simp [delete_http2_session_data]

/-- Claim C3: on every terminal event (fatal decode error, transport
EOF/error/timeout, graceful-drain completion) delivered to a live
connection, teardown releases the SSL layer, transport, resolver, protocol
session and stream context in that fixed order (its action trace is an
ordered selection of the canonical sequence and always contains the three
unconditional releases in order, and it is embedded in the trace of the
handler that fired), and over any whole execution the teardown runs at most
once. -/
theorem teardown_fixed_order_and_at_most_once (ctx : Ctx) (sd sd0 : SessionData)
    (e : LoopEvent) (es : List LoopEvent)
    (hLive : sd.bevLive = true) (hTerm : isTerminalEvent e = true) :
    List.Sublist (delete_http2_session_data sd).2
        [Act.sslShutdown, Act.freeBev, Act.freeDns, Act.delSession, Act.delStream] ∧
      List.Sublist [Act.freeBev, Act.freeDns, Act.delSession]
        (delete_http2_session_data sd).2 ∧
      List.Sublist (delete_http2_session_data sd).2 (stepEvent ctx sd e).2 ∧
      (runLoop ctx sd0 es).2.count Act.freeBev ≤ 1 := by
  refine ⟨?_, ?_, ?_, runLoop_count_freeBev ctx es sd0⟩
  · simp only [delete_http2_session_data]
    split <;> split <;> decide
  · simp only [delete_http2_session_data]
    split <;> split <;> decide
  · cases e with
    | readReady input rv cbs =>
      have hrv : rv < 0 := by simpa [isTerminalEvent] using hTerm
      have h1 : List.Sublist (delete_http2_session_data sd).2
          ((cbs.map (dispatchCb sd)).flatten ++
            Act.warnFatal rv :: ((delete_http2_session_data sd).2 ++ [Act.flush])) :=
        ((List.sublist_append_left _ _).cons _).trans
          (List.sublist_append_right _ _)
      simpa [stepEvent, hLive, readcb, hrv] using h1
    | writeDone wr ww ol =>
      have hc : (wr = 0 ∧ ww = 0) ∧ ol = 0 := by
        simpa [isTerminalEvent] using hTerm
      obtain ⟨⟨h1, h2⟩, h3⟩ := hc
      subst h1; subst h2; subst h3
      simp [stepEvent, hLive, writecb]
    | connected => simp [isTerminalEvent] at hTerm
    | eofEv =>
      simp [stepEvent, hLive, eventcb]
    | errorEv =>
      simp [stepEvent, hLive, eventcb]
    | timeoutEv =>
      simp [stepEvent, hLive, eventcb]

/-- A live session state used to instantiate the lifecycle theorems. -/
def sdLive : SessionData := ⟨true, true, true, true, true, 1⟩

/-- An empty connection context used to instantiate the lifecycle
theorems. -/
def ctx0 : Ctx := ⟨[], ⟨0, 0, ⟨0, 0⟩, ⟨0, 0⟩, ⟨0, 0⟩, ⟨0, 0⟩⟩, [], []⟩

/-- Witness for claim C3 at a live session and the EOF terminal event. -/
theorem teardown_fixed_order_witness :
    List.Sublist (delete_http2_session_data sdLive).2
        [Act.sslShutdown, Act.freeBev, Act.freeDns, Act.delSession, Act.delStream] ∧
      List.Sublist [Act.freeBev, Act.freeDns, Act.delSession]
        (delete_http2_session_data sdLive).2 ∧
      List.Sublist (delete_http2_session_data sdLive).2
        (stepEvent ctx0 sdLive LoopEvent.eofEv).2 ∧
      (runLoop ctx0 sdLive [LoopEvent.eofEv, LoopEvent.eofEv]).2.count Act.freeBev ≤ 1 :=
  teardown_fixed_order_and_at_most_once ctx0 sdLive sdLive LoopEvent.eofEv
    [LoopEvent.eofEv, LoopEvent.eofEv] rfl rfl

/-- Claim C4: the write-completion handler tears the connection down exactly
when the output buffer is empty and the engine wants neither to read nor to
write, and every write completion of a live connection re-evaluates exactly
this `writecb` check. -/
theorem draining_to_closed_iff (ctx : Ctx) (sd : SessionData) (wr ww : Int)
    (ol : Nat) (hLive : sd.bevLive = true) :
    (Act.freeBev ∈ (writecb sd wr ww ol).2 ↔ ol = 0 ∧ wr = 0 ∧ ww = 0) ∧
      stepEvent ctx sd (.writeDone wr ww ol) = writecb sd wr ww ol := by
  refine ⟨?_, by simp [stepEvent, hLive]⟩
  simp only [writecb]
  split
  · next h => simp [freeBev_mem_delete sd, h.1, h.2.1, h.2.2]
  · next h =>
    simp only [List.not_mem_nil, false_iff]
    intro hx
    exact h ⟨hx.2.1, hx.2.2, hx.1⟩

/-- Witness for claim C4: with empty output and no engine interest the
teardown fires. -/
theorem draining_to_closed_witness :
    (Act.freeBev ∈ (writecb sdLive 0 0 0).2 ↔
        (0 : Nat) = 0 ∧ (0 : Int) = 0 ∧ (0 : Int) = 0) ∧
      stepEvent ctx0 sdLive (.writeDone 0 0 0) = writecb sdLive 0 0 0 :=
  draining_to_closed_iff ctx0 sdLive 0 0 0 rfl

/-- Claim C5: the connected branch performs, in this order, TCP_NODELAY,
session construction with the registered callback set, the fixed connection
preface write, the settings submission with max concurrent streams = 100,
the request submission with exactly the four pseudo-headers, and the final
flush (which is also the last action of the handler). -/
theorem connected_activation_sequence (ctx : Ctx) :
    List.Sublist
        [Act.setNodelay, Act.initSession registered_callbacks,
         Act.writeTransport NGHTTP2_CLIENT_CONNECTION_HEADER,
         Act.submitSettings [(NGHTTP2_SETTINGS_MAX_CONCURRENT_STREAMS, 100)],
         Act.submitReq (request_hdrs ctx), Act.flush]
        (eventcb_connected ctx) ∧
      request_hdrs ctx =
        [(":method".toList, "GET".toList),
         (":scheme".toList, substr ctx.uri ctx.u.schema.off ctx.u.schema.len),
         (":authority".toList, ctx.authority),
         (":path".toList, ctx.path)] ∧
      (eventcb_connected ctx).getLast? = some Act.flush := by
  refine ⟨?_, rfl, rfl⟩
  simp only [eventcb_connected, send_client_connection_header_acts,
    submit_request_acts, List.cons_append, List.nil_append]
  exact .cons _ (.cons₂ _ (.cons₂ _ (.cons₂ _ (.cons₂ _ (.cons _ (.cons _
    (.cons₂ _ (.cons₂ _ .slnil))))))))

/-- Claim C6: for a live connection, a negative ingestion result tears the
connection down (and drains nothing), a non-negative result `rv` drains
exactly `rv` bytes from the input buffer, and the handler always ends by
attempting a flush. -/
theorem readcb_ingestion_semantics (sd : SessionData) (input : List Char)
    (rv : Int) (cbs : List CbEvent)
    (hc : 0 ≤ rv → rv.toNat ≤ input.length) :
    (rv < 0 →
        Act.freeBev ∈ (readcb sd input rv cbs).2.2 ∧
          (readcb sd input rv cbs).2.1 = input) ∧
      (0 ≤ rv →
        (readcb sd input rv cbs).2.1 = input.drop rv.toNat ∧
          (readcb sd input rv cbs).2.1.length + rv.toNat = input.length) ∧
      Act.flush ∈ (readcb sd input rv cbs).2.2 := by
  by_cases hrv : rv < 0
  · refine ⟨fun _ => ⟨?_, ?_⟩, fun h => absurd hrv (not_lt.mpr h), ?_⟩
    · simp [readcb, hrv, List.mem_append, freeBev_mem_delete sd]
    · simp [readcb, hrv]
    · simp [readcb, hrv, List.mem_append]
  · have hdrop : (readcb sd input rv cbs).2.1 = input.drop rv.toNat := by
      simp [readcb, hrv]
    refine ⟨fun h => absurd h hrv, fun h => ⟨hdrop, ?_⟩, by simp [readcb, hrv]⟩
    rw [hdrop, List.length_drop]
    exact Nat.sub_add_cancel (hc h)

/-- Witness for claim C6 at `rv = 1` on a one-byte buffer and at
`rv = -1`. -/
theorem readcb_ingestion_witness :
    ((readcb sdLive ['a'] 1 []).2.1 = List.drop (1 : Int).toNat ['a'] ∧
        (readcb sdLive ['a'] 1 []).2.1.length + (1 : Int).toNat =
          (['a'] : List Char).length) ∧
      Act.freeBev ∈ (readcb sdLive ['a'] (-1) []).2.2 ∧
      Act.flush ∈ (readcb sdLive ['a'] 1 []).2.2 :=
  ⟨(readcb_ingestion_semantics sdLive ['a'] 1 [] (by decide)).2.1 (by decide),
   ((readcb_ingestion_semantics sdLive ['a'] (-1) [] (by decide)).1 (by decide)).1,
   (readcb_ingestion_semantics sdLive ['a'] 1 [] (by decide)).2.2⟩

/-- Claim C7: a non-positive result of the protocol selection (the peer did
not select the expected identifier) aborts the process with the diagnostic,
before any request could be submitted; the failure is not recoverable. -/
theorem alpn_failure_aborts (alpn : Int) (ctx : Ctx) (sd : SessionData)
    (es : List LoopEvent) (h : alpn ≤ 0) :
    runClient alpn ctx sd es = [Act.abortProc 1 alpnFailureMsg] ∧
      ∀ hdrs, Act.submitReq hdrs ∉ runClient alpn ctx sd es := by
  have h1 : runClient alpn ctx sd es = [Act.abortProc 1 alpnFailureMsg] := by
    simp [runClient, select_next_proto_cb, h]
  refine ⟨h1, fun hdrs => ?_⟩
  rw [h1]
  simp

/-- Witness for claim C7 at selection result 0. -/
theorem alpn_failure_witness :
    runClient 0 ctx0 sdLive [LoopEvent.connected] =
      [Act.abortProc 1 alpnFailureMsg] :=
  (alpn_failure_aborts 0 ctx0 sdLive [LoopEvent.connected] (by decide)).1

/-- Claim C8: a stream-closed event whose id equals the captured one logs
the closure code and submits a GOAWAY; any other id does nothing; and the
read handler that delivered the event always ends with the flush that sends
the GOAWAY out. -/
theorem stream_close_triggers_goaway (sd : SessionData) (storedId sid : Int)
    (code : Nat) (input : List Char) (rv : Int)
    (hstore : sd.streamId = storedId) (hrv : 0 ≤ rv) :
    (storedId = sid →
        on_stream_close_callback storedId sid code =
          [Act.logStreamClose sid code, Act.submitGoaway]) ∧
      (storedId ≠ sid → on_stream_close_callback storedId sid code = []) ∧
      (readcb sd input rv [CbEvent.streamClose sid code]).2.2 =
        on_stream_close_callback storedId sid code ++ [Act.flush] := by
  refine ⟨fun h => by simp [on_stream_close_callback, h],
    fun h => by simp [on_stream_close_callback, h], ?_⟩
  simp [readcb, not_lt.mpr hrv, dispatchCb, hstore]

/-- Witness for claim C8 at matching id 1. -/
theorem stream_close_goaway_witness :
    on_stream_close_callback 1 1 0 =
        [Act.logStreamClose 1 0, Act.submitGoaway] ∧
      (readcb sdLive [] 0 [CbEvent.streamClose 1 0]).2.2 =
        on_stream_close_callback 1 1 0 ++ [Act.flush] :=
  ⟨(stream_close_triggers_goaway sdLive 1 1 0 [] 0 rfl (by decide)).1 rfl,
   (stream_close_triggers_goaway sdLive 1 1 0 [] 0 rfl (by decide)).2.2⟩

lemma before_frame_send_run_writes (udf : Int → Option Nat) (selfId : Nat) :
    ∀ (fs : List Frame) (acc : Int × Nat),
      (before_frame_send_run udf selfId acc fs).2 =
        acc.2 + fs.countP (bfsMatch udf selfId) := by
  intro fs
  induction fs with
  | nil => intro acc; simp [before_frame_send_run]
  | cons f fs ih =>
    intro acc
    simp only [before_frame_send_run, before_frame_send_step, List.countP_cons]
    split
    · next h => rw [ih]; simp [h]; omega
    · next h => rw [ih]; simp [h]

lemma before_frame_send_run_value (udf : Int → Option Nat) (selfId : Nat)
    (S : Int) : ∀ (fs : List Frame) (acc : Int × Nat),
      (∀ f ∈ fs, bfsMatch udf selfId f = true → f.stream_id = S) →
      ((acc.1 = S → (before_frame_send_run udf selfId acc fs).1 = S) ∧
        ((∃ f ∈ fs, bfsMatch udf selfId f = true) →
          (before_frame_send_run udf selfId acc fs).1 = S)) := by
  intro fs
  induction fs with
  | nil =>
    intro acc _
    exact ⟨fun h => h, by simp [before_frame_send_run]⟩
  | cons f fs ih =>
    intro acc hall
    have htail : ∀ g ∈ fs, bfsMatch udf selfId g = true → g.stream_id = S :=
      fun g hg => hall g (List.mem_cons_of_mem f hg)
    simp only [before_frame_send_run, before_frame_send_step]
    split
    · next h =>
      have hS : f.stream_id = S := hall f (List.mem_cons_self f fs) h
      have := (ih (f.stream_id, acc.2 + 1) htail).1 hS
      exact ⟨fun _ => this, fun _ => this⟩
    · next h =>
      refine ⟨(ih acc htail).1, fun hex => ?_⟩
      obtain ⟨g, hg, hgm⟩ := hex
      rcases List.mem_cons.mp hg with rfl | hg2
      · exact absurd hgm h
      · exact (ih acc htail).2 ⟨g, hg2, hgm⟩

/-- Claim C9: under the engine contract that exactly one stream (id `S`)
carries this client's stream data as user data and that at most one frame of
the sent-frame sequence is a request HEADERS frame for it, the sequence of
`before_frame_send_callback` invocations starting from the initialized id
`-1` assigns `stream_data->stream_id` at most once, and whenever the request
frame is among the sent frames the captured value is `S` — the id the engine
reports in the response-header and data-chunk events of that exchange. -/
theorem stream_id_captured_once (udf : Int → Option Nat) (selfId : Nat)
    (S : Int) (fs : List Frame)
    (hud : ∀ sid, udf sid = some selfId ↔ sid = S)
    (hone : fs.countP (bfsMatch udf selfId) ≤ 1) :
    (before_frame_send_run udf selfId (-1, 0) fs).2 ≤ 1 ∧
      ((∃ f ∈ fs, bfsMatch udf selfId f = true) →
        (before_frame_send_run udf selfId (-1, 0) fs).1 = S) := by
  have hsid : ∀ f ∈ fs, bfsMatch udf selfId f = true → f.stream_id = S := by
    intro f _ hf
    have hm : udf f.stream_id = some selfId := by
      simp only [bfsMatch, Bool.and_eq_true, beq_iff_eq] at hf
      exact hf.2
    exact (hud f.stream_id).mp hm
  constructor
  · rw [before_frame_send_run_writes]
    simpa using hone
  · exact (before_frame_send_run_value udf selfId S fs (-1, 0) hsid).2

/-- The engine's stream-to-user-data map after the single `submit_request`:
only stream 1 carries the client's stream data (token 0). -/
def udfSingle : Int → Option Nat := fun sid => if sid = 1 then some 0 else none

/-- The request HEADERS frame of the single submitted request, on stream 1. -/
def frameReqHeaders : Frame :=
  ⟨NGHTTP2_HEADERS, NGHTTP2_HCAT_REQUEST, 1, []⟩

/-- Witness for claim C9 on the one-request frame sequence. -/
theorem stream_id_captured_once_witness :
    (before_frame_send_run udfSingle 0 (-1, 0) [frameReqHeaders]).2 ≤ 1 ∧
      (before_frame_send_run udfSingle 0 (-1, 0) [frameReqHeaders]).1 = 1 := by
  have h := stream_id_captured_once udfSingle 0 1 [frameReqHeaders]
    (by intro sid; by_cases hs : sid = 1 <;> simp [udfSingle, hs])
    (by decide)
  exact ⟨h.1, h.2 ⟨frameReqHeaders, by simp, by decide⟩⟩

lemma create_stream_id_init (uri : List Char) (u : HttpParserUrl)
    (sd : Http2StreamData) (h : create_http2_stream_data uri u = some sd) :
    sd.stream_id = -1 := by
  simp only [create_http2_stream_data, Option.bind_eq_some,
    Option.map_eq_some'] at h
  obtain ⟨al, _, pl, _, rfl⟩ := h
  rfl

/-- Claim C10: a data chunk on a stream other than the captured one writes
nothing to stdout; a received frame that is not a response HEADERS frame on
the captured stream writes nothing to stderr; and since
`create_http2_stream_data` initializes the captured id to `-1`, no receive
event with a positive engine-assigned stream id can match before the
request frame is sent. -/
theorem nonmatching_receive_events_silent (storedId sid : Int)
    (data : List Char) (f : Frame) (uri : List Char) (u : HttpParserUrl)
    (sd : Http2StreamData)
    (h1 : storedId ≠ sid)
    (h2 : ¬(f.type = NGHTTP2_HEADERS ∧ f.cat = NGHTTP2_HCAT_RESPONSE ∧
      storedId = f.stream_id))
    (h3 : create_http2_stream_data uri u = some sd)
    (h4 : 0 < sid) :
    on_data_chunk_recv_callback storedId sid data = [] ∧
      on_frame_recv_callback storedId f = [] ∧
      sd.stream_id = -1 ∧
      sd.stream_id ≠ sid := by
  refine ⟨by simp [on_data_chunk_recv_callback, h1], ?_,
    create_stream_id_init uri u sd h3, ?_⟩
  · simp only [on_frame_recv_callback]
    split
    · next ht =>
      split
      · next hc => exact absurd ⟨ht, hc.1, hc.2⟩ h2
      · rfl
    · rfl
  · rw [create_stream_id_init uri u sd h3]
    omega

/-- The stream data derived for `https://e:80/a?x`. -/
def sdWithQuery : Http2StreamData :=
  { uri := uriWithQuery,
    authority := some [some 'e', some ':', some '8', some '0', some nulChar,
      none, none, none],
    path := [some '/', some 'a', none, some 'x'],
    authoritylen := 4, pathlen := 4, stream_id := -1 }

/-- Witness for claim C10: the freshly created stream data (id `-1`) matches
no receive event on the engine-assigned stream 1. -/
theorem nonmatching_receive_events_witness :
    on_data_chunk_recv_callback (-1) 1 [] = [] ∧
      on_frame_recv_callback (-1)
        ⟨NGHTTP2_HEADERS, NGHTTP2_HCAT_RESPONSE, 1, []⟩ = [] ∧
      sdWithQuery.stream_id = -1 ∧
      sdWithQuery.stream_id ≠ 1 :=
  nonmatching_receive_events_silent (-1) 1 []
    ⟨NGHTTP2_HEADERS, NGHTTP2_HCAT_RESPONSE, 1, []⟩
    uriWithQuery uWithQuery sdWithQuery (by decide) (by decide) (by decide)
    (by decide)
